import Mathlib

/-
Verification development for the ngrok tunnel plugin
(src/src/services/NgrokService.ts).

The service is embedded as an executable small-step event system:
the service's mutable fields (`ngrokProcess`, `tunnelUrl`, `tunnelPort`,
`startedAt`) form a `ServiceState`; spawned child processes, armed
timers (`setTimeout` callbacks) and promise outcomes live in a `World`.
Each asynchronous callback of the source becomes one `Event`, and
`step` executes it exactly as the TypeScript code does.
-/

namespace Ngrok

/-- JavaScript truthiness of an optional string setting: `undefined`
and the empty string are falsy. -/
def jsTruthy : Option String → Bool
  | none => false
  | some s => s != ""

/-- Substring test (`String.includes` of JavaScript). -/
def strContains (s pat : String) : Bool :=
  (s.splitOn pat).length != 1

/-- TunnelConfig passed to the constructor (provider, authToken, region,
subdomain are the fields the service reads). -/
structure TunnelConfig where
  provider : String
  authToken : Option String
  region : Option String
  subdomain : Option String
deriving Repr, DecidableEq

/-- Runtime settings the service reads via `runtime.getSetting`. -/
structure RuntimeSettings where
  authTokenSetting : Option String
  domainSetting : Option String
deriving Repr, DecidableEq

/-- Default config used when the constructor receives none:
`config || { provider: 'ngrok' }`. -/
def defaultTunnelConfig : TunnelConfig :=
  ⟨"ngrok", none, none, none⟩

/-- The settle delay before the single discovery poll (`setTimeout(..., 2000)`). -/
def settleDelayMs : Nat := 2000

/-- The grace period of `stopTunnel` (`setTimeout(..., 5000)`). -/
def gracePeriodMs : Nat := 5000

/-- Error message thrown when the binary is not installed. -/
def ngrokNotInstalledMsg : String :=
  "ngrok is not installed. Please install it from https://ngrok.com/download or run: brew install ngrok"

/-- Error message when setting the auth token fails. -/
def authTokenFailedMsg : String := "Failed to set ngrok auth token"

/-- Error message when discovery returns no URL. -/
def tunnelUrlFailedMsg : String := "Failed to get tunnel URL from ngrok"

/-- Argument vector built for the external binary, line for line from
`startTunnel` (region flag first, then domain / subdomain with domain
taking precedence). -/
def buildNgrokArgs (st : RuntimeSettings) (cfg : TunnelConfig) (port : Nat) : List String :=
  let args := ["http", toString port]
  let args := if jsTruthy cfg.region then args ++ ["--region", cfg.region.getD ""] else args
  let args :=
    if jsTruthy st.domainSetting then args ++ ["--domain", st.domainSetting.getD ""]
    else if jsTruthy cfg.subdomain then args ++ ["--subdomain", cfg.subdomain.getD ""]
    else args
  args

/-- One tunnel descriptor of the local status API response. -/
structure TunnelDesc where
  proto : String
  public_url : Option String
deriving Repr, DecidableEq

/-- Outcome of the HTTP GET to `http://localhost:4040/api/tunnels`:
network error, a body that fails `JSON.parse`, or a parsed body whose
optional `tunnels` field is a list of descriptors. -/
inductive ApiResponse where
  | connectError : ApiResponse
  | badJson : ApiResponse
  | ok : Option (List TunnelDesc) → ApiResponse
deriving Repr, DecidableEq

/-- `fetchTunnelUrl`: resolves the `public_url` of the first descriptor
with `proto === 'https'` when that url is truthy, and `null` otherwise
(connection error, parse failure, no https entry, falsy `public_url`). -/
def fetchTunnelUrl : ApiResponse → Option String
  | .connectError => none
  | .badJson => none
  | .ok none => none
  | .ok (some ts) =>
    match ts.find? (fun t => t.proto == "https") with
    | none => none
    | some d =>
      match d.public_url with
      | none => none
      | some u => if u == "" then none else some u

/-- The mutable fields of the service instance. -/
structure ServiceState where
  ngrokProcess : Option Nat
  tunnelUrl : Option String
  tunnelPort : Option Nat
  startedAt : Option Nat
deriving Repr, DecidableEq

/-- A spawned ChildProcess object: its argv, the promise its spawn-time
`error` / fatal-stderr handlers reject, Node's `killed` flag (a kill
signal was delivered), whether a SIGKILL was delivered, whether the OS
process has exited, and the promises of `exit` handlers registered by
`stopTunnel` calls. -/
structure ProcInfo where
  args : List String
  startPromise : Nat
  killed : Bool
  sigkilled : Bool
  exited : Bool
  stopHandlers : List Nat
deriving Repr, DecidableEq

/-- An armed discovery `setTimeout` of an in-flight `startTunnel`. -/
structure PendingDiscovery where
  deadline : Nat
  port : Nat
  promise : Nat
deriving Repr, DecidableEq

/-- An armed grace-period `setTimeout` of an in-flight `stopTunnel`. -/
structure StopTimer where
  deadline : Nat
  promise : Nat
deriving Repr, DecidableEq

/-- Outcome of a settled promise. -/
inductive PromiseResult where
  | str : String → PromiseResult
  | unit : PromiseResult
  | err : String → PromiseResult
deriving Repr, DecidableEq

/-- The whole system: current time, immutable config and settings, the
service state, every ChildProcess spawned so far (pid = index), armed
timers, and promise slots (`none` = still pending). -/
structure World where
  now : Nat
  cfg : TunnelConfig
  settings : RuntimeSettings
  svc : ServiceState
  procs : List ProcInfo
  discoveries : List PendingDiscovery
  stopTimers : List StopTimer
  promises : List (Option PromiseResult)
deriving Repr, DecidableEq

/-- Settling a promise: the first settle wins, later settles are no-ops. -/
def settlePromise (ps : List (Option PromiseResult)) (i : Nat) (r : PromiseResult) :
    List (Option PromiseResult) :=
  match ps[i]? with
  | some none => ps.set i (some r)
  | _ => ps

/-- `cleanup()`: null out every mutable field. -/
def cleanupSvc (_ : ServiceState) : ServiceState :=
  ⟨none, none, none, none⟩

/-- Whether an auth token is configured (`tunnelConfig.authToken ||
getSetting('NGROK_AUTH_TOKEN')` is truthy). -/
def authConfigured (w : World) : Bool :=
  jsTruthy w.cfg.authToken || jsTruthy w.settings.authTokenSetting

/-- `isActive()`: process handle present, its `killed` flag unset, and a
tunnel URL stored. -/
def isActive (w : World) : Bool :=
  match w.svc.ngrokProcess with
  | none => false
  | some pid =>
    match w.procs[pid]? with
    | none => false
    | some pr => !pr.killed && w.svc.tunnelUrl.isSome

/-- `getUrl()`. -/
def getUrl (w : World) : Option String := w.svc.tunnelUrl

/-- The record returned by `getStatus()`. -/
structure TunnelStatus where
  active : Bool
  url : Option String
  port : Option Nat
  startedAt : Option Nat
  provider : String
deriving Repr, DecidableEq

/-- `getStatus()`: snapshot with the constant provider label. -/
def getStatus (w : World) : TunnelStatus :=
  ⟨isActive w, w.svc.tunnelUrl, w.svc.tunnelPort, w.svc.startedAt, "ngrok"⟩

/-- Number of spawned processes that have not exited. -/
def liveProcCount (w : World) : Nat :=
  (w.procs.filter (fun p => !p.exited)).length

/-- The asynchronous events of the system. Each carries the time at
which it occurs. `startCall` carries the environment's answers to the
install check and the auth-token subprocess; `discoveryFire` carries the
status-API response observed by `fetchTunnelUrl`. -/
inductive Event where
  | startCall : Nat → Option Nat → Bool → Bool → Event
  | discoveryFire : Nat → Nat → ApiResponse → Event
  | stderrData : Nat → Nat → String → Event
  | procError : Nat → Nat → String → Event
  | procExit : Nat → Nat → Event
  | stopCall : Nat → Event
  | stopTimerFire : Nat → Nat → Event
deriving Repr, DecidableEq

/-- The world right after the spawn of `startTunnel`: a fresh process
(pid = next index) with the built argv, the handle stored, the pending
start promise recorded, and the discovery `setTimeout` armed at
`t + settleDelayMs`. -/
def spawnWorld (w : World) (t port : Nat) : World :=
  { w with
    now := t
    svc := { w.svc with ngrokProcess := some w.procs.length }
    procs := w.procs ++
      [⟨buildNgrokArgs w.settings w.cfg port, w.promises.length, false, false, false, []⟩]
    discoveries := w.discoveries ++ [⟨t + settleDelayMs, port, w.promises.length⟩]
    promises := w.promises ++ [none] }

/-- One step of the system, executing a single event exactly as the
TypeScript source does. `none` means the event is not enabled (time runs
backwards, no such process / timer, process already exited). -/
def step (w : World) : Event → Option World
  | .startCall t port installed authOk =>
    if w.now ≤ t then
      if isActive w then
        some { w with
               now := t
               promises := w.promises ++ [some (.str (w.svc.tunnelUrl.getD ""))] }
      else if port.isNone then
        some { w with now := t, promises := w.promises ++ [some .unit] }
      else if !installed then
        some { w with now := t, promises := w.promises ++ [some (.err ngrokNotInstalledMsg)] }
      else if authConfigured w && !authOk then
        some { w with now := t, promises := w.promises ++ [some (.err authTokenFailedMsg)] }
      else
        some (spawnWorld w t (port.getD 0))
    else none
  | .discoveryFire t i resp =>
    match w.discoveries[i]? with
    | none => none
    | some d =>
      if w.now ≤ t && d.deadline ≤ t then
        let w1 := { w with now := t, discoveries := w.discoveries.eraseIdx i }
        match fetchTunnelUrl resp with
        | some url =>
          some { w1 with
                 svc := { w1.svc with
                          tunnelUrl := some url
                          tunnelPort := some d.port
                          startedAt := some t }
                 promises := settlePromise w1.promises d.promise (.str url) }
        | none =>
          some { w1 with promises := settlePromise w1.promises d.promise (.err tunnelUrlFailedMsg) }
      else none
  | .stderrData t pid line =>
    match w.procs[pid]? with
    | none => none
    | some pr =>
      if w.now ≤ t then
        if strContains line "invalid port" then
          some { w with
                 now := t
                 promises := settlePromise w.promises pr.startPromise (.err line) }
        else
          some { w with now := t }
      else none
  | .procError t pid msg =>
    match w.procs[pid]? with
    | none => none
    | some pr =>
      if w.now ≤ t then
        some { w with
               now := t
               promises := settlePromise w.promises pr.startPromise
                 (.err ("Failed to start ngrok: " ++ msg)) }
      else none
  | .procExit t pid =>
    match w.procs[pid]? with
    | none => none
    | some pr =>
      if w.now ≤ t && !pr.exited then
        let procs1 := w.procs.set pid { pr with exited := true }
        if pr.stopHandlers.isEmpty then
          some { w with now := t, procs := procs1 }
        else
          some { w with
                 now := t
                 procs := procs1
                 svc := cleanupSvc w.svc
                 promises := pr.stopHandlers.foldl (fun ps h => settlePromise ps h .unit)
                   w.promises }
      else none
  | .stopCall t =>
    if w.now ≤ t then
      match w.svc.ngrokProcess with
      | none => some { w with now := t, promises := w.promises ++ [some .unit] }
      | some pid =>
        match w.procs[pid]? with
        | none => none
        | some pr =>
          let p := w.promises.length
          some { w with
                 now := t
                 procs := w.procs.set pid
                   { pr with
                     stopHandlers := pr.stopHandlers ++ [p]
                     killed := pr.killed || !pr.exited }
                 stopTimers := w.stopTimers ++ [⟨t + gracePeriodMs, p⟩]
                 promises := w.promises ++ [none] }
    else none
  | .stopTimerFire t i =>
    match w.stopTimers[i]? with
    | none => none
    | some st =>
      if w.now ≤ t && st.deadline ≤ t then
        let w1 := { w with now := t, stopTimers := w.stopTimers.eraseIdx i }
        let w2 :=
          match w1.svc.ngrokProcess with
          | none => w1
          | some pid =>
            match w1.procs[pid]? with
            | none => w1
            | some pr =>
              if !pr.killed && !pr.exited then
                { w1 with procs := w1.procs.set pid { pr with killed := true, sigkilled := true } }
              else w1
        some { w2 with
               svc := cleanupSvc w2.svc
               promises := settlePromise w2.promises st.promise .unit }
      else none

/-- Run a list of events from a world. -/
def runEvents (w : World) : List Event → Option World
  | [] => some w
  | e :: es =>
    match step w e with
    | none => none
    | some w1 => runEvents w1 es

/-- The world at construction: empty service state, nothing spawned. -/
def initWorld (cfg : Option TunnelConfig) (st : RuntimeSettings) : World :=
  ⟨0, cfg.getD defaultTunnelConfig, st, ⟨none, none, none, none⟩, [], [], [], []⟩

/-- Settings with nothing configured. -/
def noSettings : RuntimeSettings := ⟨none, none⟩

/-- The initial world used by the concrete runs below. -/
def w0 : World := initWorld none noSettings

/-- Status-API response with a single https tunnel (the happy path). -/
def httpsResp : ApiResponse := .ok (some [⟨"https", some "https://test.ngrok.io"⟩])

/-- World after an ordinary successful `startTunnel(3000)` (active tunnel). -/
def wActive : World :=
  (runEvents w0 [.startCall 0 (some 3000) true true,
    .discoveryFire 2000 0 httpsResp]).getD w0

/-- The ChildProcess tracked in `wActive`. -/
def prActive : ProcInfo :=
  (wActive.procs[0]?).getD ⟨[], 0, false, false, false, []⟩

/-- World after a successful start whose process then exits
spontaneously (no `stop()` call). -/
def wExitNoStop : World :=
  (runEvents w0 [.startCall 0 (some 3000) true true, .discoveryFire 2000 0 httpsResp,
    .procExit 2500 0]).getD w0


/-- World in which a stop completed (process killed and exited) while
the start's discovery timer was still pending, and the pending discovery
then committed its stale URL. -/
def wStaleUrl : World :=
  (runEvents w0 [.startCall 0 (some 3000) true true, .stopCall 100,
    .procExit 200 0, .discoveryFire 2000 0 httpsResp]).getD w0

/-- World after a failed start followed by a second start: two spawned,
unexited processes. -/
def wTwoProcs : World :=
  (runEvents w0 [.startCall 0 (some 3000) true true,
    .discoveryFire 2000 0 (.ok (some [])), .startCall 3000 (some 3000) true true]).getD w0

/-- World after an active tunnel is stopped and the process never exits:
the grace timer has fired. -/
def wStopTimeout : World :=
  (runEvents w0 [.startCall 0 (some 3000) true true, .discoveryFire 2000 0 httpsResp,
    .stopCall 3000, .stopTimerFire 8000 0]).getD w0


/-- The discovery failure cases, stated independently of
`fetchTunnelUrl`: connection error, unparsable body, body without a
`tunnels` list, no https descriptor, or a first https descriptor whose
`public_url` is missing or empty. -/
def discoveryFails : ApiResponse → Bool
  | .connectError => true
  | .badJson => true
  | .ok none => true
  | .ok (some ts) =>
    match ts.find? (fun t => t.proto == "https") with
    | none => true
    | some d =>
      match d.public_url with
      | none => true
      | some u => u == ""

/-- Appending an element and reading it back at the old length. -/
theorem get_concat_length {α : Type} (l : List α) (a : α) :
    (l ++ [a])[l.length]? = some a := by
  induction l with
  | nil => rfl
  | cons x xs ih => simp [ih]

/-- `startTunnel` takes the spawn branch whenever the service is not
active, a numeric port is supplied, the binary is installed and the
auth-token step succeeds. -/
theorem step_startCall_spawn (w : World) (t port : Nat)
    (hact : isActive w = false) (ht : w.now ≤ t) :
    step w (.startCall t (some port) true true) = some (spawnWorld w t port) := by
  unfold step
  simp [ht, hact]

/-- C2: counterexample. Concrete run: a successful `startTunnel(3000)`
(active, url committed), then the process exits spontaneously at
t = 2500 with no `stop()` call. No exit handler was registered at spawn
(the process carries no stop handlers), so the state is not cleared:
`getStatus()` still reports `active = true` with the old url and port,
contrary to the claimed `{active: false, url: null, port: null}`. -/
theorem spontaneousExit_state_kept_cex :
    runEvents w0 [.startCall 0 (some 3000) true true, .discoveryFire 2000 0 httpsResp,
        .procExit 2500 0] = some wExitNoStop ∧
    wExitNoStop.procs.map ProcInfo.exited = [true] ∧
    wExitNoStop.procs.map ProcInfo.stopHandlers = [[]] ∧
    getStatus wExitNoStop =
      ⟨true, some "https://test.ngrok.io", some 3000, some 2000, "ngrok"⟩ := by
  decide

/-- C2 (amended): no exit handler is registered at spawn time (only the
`error` and stderr handlers are); when a process with no registered stop
handler exits, the service state is untouched and `getStatus()` returns
exactly what it returned before the exit. -/
theorem spontaneousExit_noop (w : World) (t pid : Nat) (pr : ProcInfo)
    (hp : w.procs[pid]? = some pr) (hh : pr.stopHandlers = [])
    (hx : pr.exited = false) (ht : w.now ≤ t) :
    (step w (.procExit t pid)).map World.svc = some w.svc ∧
    (step w (.procExit t pid)).map getStatus = some (getStatus w) := by
  have hlt : pid < w.procs.length := by
    by_contra hge
    push_neg at hge
    rw [List.getElem?_eq_none hge] at hp
    cases hp
  have hstep : step w (.procExit t pid) =
      some { w with now := t, procs := w.procs.set pid { pr with exited := true } } := by
    unfold step
    simp [hp, ht, hx, hh]
  rw [hstep]
  have hia : isActive { w with now := t, procs := w.procs.set pid { pr with exited := true } } =
      isActive w := by
    unfold isActive
    cases hnp : w.svc.ngrokProcess with
    | none => rfl
    | some j =>
      simp only []
      by_cases hji : pid = j
      · subst hji
        rw [List.getElem?_set_eq_of_lt _ hlt, hp]
      · rw [List.getElem?_set_ne hji]
  refine ⟨rfl, ?_⟩
  show some (getStatus { w with now := t, procs := w.procs.set pid { pr with exited := true } }) =
    some (getStatus w)
  unfold getStatus
  rw [hia]

/-- C2 witness: the amended theorem applied to the active world
`wActive` and its tracked process. -/
theorem spontaneousExit_noop_witness :
    (step wActive (.procExit 2500 0)).map World.svc = some wActive.svc ∧
    (step wActive (.procExit 2500 0)).map getStatus = some (getStatus wActive) :=
  spontaneousExit_noop wActive 2500 0 prActive (by decide) (by decide) (by decide) (by decide)


/-- C3: counterexample. Concrete run: `startTunnel(3000)` spawns and
arms the discovery timer; `stopTunnel()` is called at t = 100 (kill
signal sent), the process exits at t = 200 (stop's exit handler cleans
up), and the still-armed discovery timer fires at t = 2000 with a
successful fetch, committing a stale URL into the cleared state. In the
resulting reachable state `getUrl()` is non-null while `isActive()` and
`getStatus().active` are false, refuting the claimed equivalence. -/
theorem url_active_iff_cex :
    runEvents w0 [.startCall 0 (some 3000) true true, .stopCall 100,
        .procExit 200 0, .discoveryFire 2000 0 httpsResp] = some wStaleUrl ∧
    getUrl wStaleUrl = some "https://test.ngrok.io" ∧
    isActive wStaleUrl = false ∧
    (getStatus wStaleUrl).active = false ∧
    wStaleUrl.svc.ngrokProcess = none := by
  decide

/-- C3 (amended): in every state, `isActive() == true` implies
`getUrl() != null`, and `getStatus().active` equals `isActive()`; the
converse implication does not hold (a stale discovery can commit a URL
after a stop has cleared the state). -/
theorem active_imp_url (w : World) :
    (isActive w = true → getUrl w ≠ none) ∧ (getStatus w).active = isActive w := by
  constructor
  · intro h
    unfold isActive at h
    unfold getUrl
    cases hnp : w.svc.ngrokProcess with
    | none => simp [hnp] at h
    | some pid =>
      simp only [hnp] at h
      cases hg : w.procs[pid]? with
      | none => simp [hg] at h
      | some pr =>
        simp only [hg] at h
        have hs : w.svc.tunnelUrl.isSome = true := ((Bool.and_eq_true _ _).mp h).2
        cases hu : w.svc.tunnelUrl with
        | none => rw [hu] at hs; cases hs
        | some u => simp
  · rfl

/-- C3 witness: the implication discharged on the concrete active world
`wActive`. -/
theorem active_imp_url_witness :
    getUrl wActive ≠ none ∧ (getStatus wActive).active = isActive wActive :=
  ⟨(active_imp_url wActive).1 (by decide), (active_imp_url wActive).2⟩

/-- C4: counterexample. Concrete run: a start whose discovery fails
leaves the first process alive (never terminated); a second
`startTunnel(3000)` then takes the spawn branch again, so two spawned
processes are simultaneously live — refuting "at most one live process
exists per manager instance at any time". -/
theorem two_live_processes_cex :
    runEvents w0 [.startCall 0 (some 3000) true true,
        .discoveryFire 2000 0 (.ok (some [])),
        .startCall 3000 (some 3000) true true] = some wTwoProcs ∧
    liveProcCount wTwoProcs = 2 ∧
    wTwoProcs.procs.map ProcInfo.exited = [false, false] := by
  decide

/-- C4 (amended): while `isActive()` is true a further `startTunnel`
call is a no-op that resolves with the stored URL — no new process is
spawned, and the service state, process list and discovery timers are
unchanged. (At-most-one-live-process does not hold after a failed start,
as the counterexample run shows.) -/
theorem start_idempotent_while_active (w : World) (t : Nat) (port : Option Nat)
    (installed authOk : Bool) (hact : isActive w = true) (ht : w.now ≤ t) :
    (step w (.startCall t port installed authOk)).map
      (fun w1 => (w1.svc, w1.procs, w1.discoveries, w1.promises[w.promises.length]?)) =
    some (w.svc, w.procs, w.discoveries,
      some (some (PromiseResult.str (w.svc.tunnelUrl.getD "")))) := by
  unfold step
  simp [hact, ht, get_concat_length]

/-- C4 witness: the amended theorem applied to the concrete active world
`wActive`. -/
theorem start_idempotent_while_active_witness :
    (step wActive (.startCall 2500 (some 4000) true true)).map
      (fun w1 => (w1.svc, w1.procs, w1.discoveries, w1.promises[wActive.promises.length]?)) =
    some (wActive.svc, wActive.procs, wActive.discoveries,
      some (some (PromiseResult.str (wActive.svc.tunnelUrl.getD "")))) :=
  start_idempotent_while_active wActive 2500 (some 4000) true true (by decide) (by decide)

/-- C5: supporting run for the code bug. Active tunnel; `stopTunnel()`
is called at t = 3000 (graceful kill delivered, `killed` flag set) and
the process never exits. When the grace timer fires at
t = 3000 + gracePeriodMs the stop promise resolves and the handle is
cleared — but the `!this.ngrokProcess.killed` guard, already true from
the graceful kill, suppresses the `kill('SIGKILL')` escalation: no
SIGKILL is ever delivered and the process has still not exited. -/
theorem stop_grace_no_sigkill :
    runEvents w0 [.startCall 0 (some 3000) true true, .discoveryFire 2000 0 httpsResp,
        .stopCall 3000, .stopTimerFire (3000 + gracePeriodMs) 0] = some wStopTimeout ∧
    wStopTimeout.promises[1]? = some (some PromiseResult.unit) ∧
    wStopTimeout.svc.ngrokProcess = none ∧
    isActive wStopTimeout = false ∧
    wStopTimeout.procs.map ProcInfo.sigkilled = [false] ∧
    wStopTimeout.procs.map ProcInfo.exited = [false] ∧
    wStopTimeout.procs.map ProcInfo.killed = [true] := by
  decide


/-- C6: counterexample. The response
`{tunnels: [{proto: "https", public_url: ""}]}` is well-formed JSON and
does contain an https-protocol entry, yet `fetchTunnelUrl` returns null
instead of that entry's `public_url` (the `httpsTunnel?.public_url`
truthiness check rejects the empty string) — so null is not returned in
exactly the three claimed cases. -/
theorem empty_public_url_cex :
    fetchTunnelUrl (ApiResponse.ok (some [⟨"https", some ""⟩])) = none ∧
    (([⟨"https", some ""⟩] : List TunnelDesc).find?
      (fun t => t.proto == "https")).isSome = true := by
  decide

/-- C6 (amended): a spawn arms exactly one discovery timer at the fixed
`settleDelayMs = 2000` settle delay (no retry is ever scheduled); the
fetch returns null exactly in the `discoveryFails` cases (connection
error, malformed body, no https entry, or first https entry with a
missing/empty `public_url`); and whenever the first https descriptor has
a non-empty `public_url`, that url is returned. -/
theorem discovery_characterization :
    (∀ (w : World) (t port : Nat), isActive w = false → w.now ≤ t →
      (step w (.startCall t (some port) true true)).map World.discoveries =
        some (w.discoveries ++ [⟨t + settleDelayMs, port, w.promises.length⟩])) ∧
    settleDelayMs = 2000 ∧
    (∀ resp, (fetchTunnelUrl resp).isNone = discoveryFails resp) ∧
    (∀ (ts : List TunnelDesc) (d : TunnelDesc) (u : String),
      ts.find? (fun x => x.proto == "https") = some d → d.public_url = some u → u ≠ "" →
      fetchTunnelUrl (ApiResponse.ok (some ts)) = some u) := by
  refine ⟨?_, rfl, ?_, ?_⟩
  · intro w t port hact ht
    rw [step_startCall_spawn w t port hact ht]
    rfl
  · intro resp
    cases resp with
    | connectError => rfl
    | badJson => rfl
    | ok o =>
      cases o with
      | none => rfl
      | some ts =>
        simp only [fetchTunnelUrl, discoveryFails]
        cases hf : ts.find? (fun t => t.proto == "https") with
        | none => simp only [hf, Option.isNone_none]
        | some d =>
          simp only [hf]
          cases hu : d.public_url with
          | none => simp only [hu, Option.isNone_none]
          | some u =>
            simp only [hu]
            by_cases he : u == "" <;> simp [he]
  · intro ts d u hf hu hne
    simp only [fetchTunnelUrl]
    simp only [hf, hu]
    simp [hne]

/-- C6 witness: the characterization applied to the initial world and to
concrete responses. -/
theorem discovery_characterization_witness :
    (step w0 (.startCall 0 (some 3000) true true)).map World.discoveries =
      some (w0.discoveries ++ [⟨0 + settleDelayMs, 3000, w0.promises.length⟩]) ∧
    fetchTunnelUrl (ApiResponse.ok (some [⟨"https", some "https://a.ngrok.io"⟩])) =
      some "https://a.ngrok.io" :=
  ⟨discovery_characterization.1 w0 0 3000 (by decide) (by decide),
   discovery_characterization.2.2.2 [⟨"https", some "https://a.ngrok.io"⟩]
     ⟨"https", some "https://a.ngrok.io"⟩ "https://a.ngrok.io" (by decide) rfl (by decide)⟩

/-- C7: the argument vector is `["http", "<port>"]` followed by the
optional flags: `--region <value>` exactly when a region is configured,
and `--domain <value>` when a domain is configured, else
`--subdomain <value>` when a subdomain is configured, else neither
(domain takes precedence over subdomain). -/
theorem buildNgrokArgs_spec (st : RuntimeSettings) (cfg : TunnelConfig) (port : Nat) :
    buildNgrokArgs st cfg port =
      ["http", toString port]
      ++ (if jsTruthy cfg.region then ["--region", cfg.region.getD ""] else [])
      ++ (if jsTruthy st.domainSetting then ["--domain", st.domainSetting.getD ""]
          else if jsTruthy cfg.subdomain then ["--subdomain", cfg.subdomain.getD ""]
          else []) := by
  unfold buildNgrokArgs
  cases hr : jsTruthy cfg.region <;>
    cases hd : jsTruthy st.domainSetting <;>
      cases hs : jsTruthy cfg.subdomain <;> simp [hr, hd, hs]

/-- C8: with the binary not installed (and the service not already
active, so the check is reached), `startTunnel(port)` rejects with the
fatal install error before any spawn: the service state, the process
list, the discovery timers and the stop timers are all unchanged. -/
theorem start_not_installed_rejects (w : World) (t port : Nat) (authOk : Bool)
    (hact : isActive w = false) (ht : w.now ≤ t) :
    (step w (.startCall t (some port) false authOk)).map
      (fun w1 => (w1.svc, w1.procs, w1.discoveries, w1.stopTimers, w1.promises)) =
    some (w.svc, w.procs, w.discoveries, w.stopTimers,
      w.promises ++ [some (PromiseResult.err ngrokNotInstalledMsg)]) := by
  unfold step
  simp [hact, ht]

/-- C8 witness: the theorem applied to the initial world. -/
theorem start_not_installed_rejects_witness :
    (step w0 (.startCall 0 (some 3000) false true)).map
      (fun w1 => (w1.svc, w1.procs, w1.discoveries, w1.stopTimers, w1.promises)) =
    some (w0.svc, w0.procs, w0.discoveries, w0.stopTimers,
      w0.promises ++ [some (PromiseResult.err ngrokNotInstalledMsg)]) :=
  start_not_installed_rejects w0 0 3000 true (by decide) (by decide)

/-- C9: when the service is not active and no numeric port is supplied,
`startTunnel` resolves with undefined (no rejection), spawns nothing,
and leaves the service state unchanged. -/
theorem start_no_port_resolves_undefined (w : World) (t : Nat) (installed authOk : Bool)
    (hact : isActive w = false) (ht : w.now ≤ t) :
    (step w (.startCall t none installed authOk)).map
      (fun w1 => (w1.svc, w1.procs, w1.discoveries, w1.promises)) =
    some (w.svc, w.procs, w.discoveries, w.promises ++ [some PromiseResult.unit]) := by
  unfold step
  simp [hact, ht]

/-- C9 witness: the theorem applied to the initial world. -/
theorem start_no_port_resolves_undefined_witness :
    (step w0 (.startCall 0 none true true)).map
      (fun w1 => (w1.svc, w1.procs, w1.discoveries, w1.promises)) =
    some (w0.svc, w0.procs, w0.discoveries, w0.promises ++ [some PromiseResult.unit]) :=
  start_no_port_resolves_undefined w0 0 true true (by decide) (by decide)

/-- C10: in every state whatsoever — hence for every configuration
value, including a constructor-supplied provider of "cloudflare" or
"localtunnel" — `getStatus().provider` is the constant "ngrok". -/
theorem getStatus_provider_constant (w : World) : (getStatus w).provider = "ngrok" :=
  rfl


end Ngrok
